import Mathlib

/-!
Shallow embedding of the InvestiFi cryptocurrency dashboard core
(gateway route, data poller, sorter, purchase-form validator/submission,
notification slot) together with proofs about its behaviour.

Numbers that the TypeScript source handles as IEEE doubles are modelled
as exact rationals (`Rat`); machine strings are Lean `String`s.
-/

namespace Investifi

/-! ## Constants (src/app/constants/index.ts) -/

/-- `API_CONFIG.REFRESH_INTERVAL`: milliseconds between auto-refresh requests. -/
def REFRESH_INTERVAL : Nat := 10000

/-- `API_CONFIG.MAX_CRYPTO_ASSETS`: maximum number of assets fetched/displayed. -/
def MAX_CRYPTO_ASSETS : Nat := 10

/-- `PURCHASE_LIMITS.MIN_AMOUNT`: minimum purchase amount in USD. -/
def MIN_AMOUNT : Rat := mkRat 1 100

/-- `PURCHASE_LIMITS.MAX_AMOUNT`: maximum purchase amount in USD. -/
def MAX_AMOUNT : Rat := 5000

/-- `UI_CONFIG.COUNTDOWN_RESET`: value the countdown resets to after zero. -/
def COUNTDOWN_RESET : Nat := 10

/-- `UI_CONFIG.INITIAL_COUNTDOWN`: initial countdown value on mount. -/
def INITIAL_COUNTDOWN : Nat := 10

/-- `DEFAULTS.CRYPTO_SYMBOL`: preferred default asset symbol. -/
def CRYPTO_SYMBOL : String := "BTC"

/-- `ERROR_MESSAGES.FETCH_FAILED`. -/
def FETCH_FAILED : String := "Failed to fetch cryptocurrency data"

/-- `ERROR_MESSAGES.AMOUNT_REQUIRED`. -/
def AMOUNT_REQUIRED : String := "USD amount is required"

/-- `ERROR_MESSAGES.INVALID_NUMBER`. -/
def INVALID_NUMBER : String := "Please enter a valid number"

/-- `ERROR_MESSAGES.AMOUNT_TOO_LOW`. -/
def AMOUNT_TOO_LOW : String := "Amount must be greater than 0"

/-- `ERROR_MESSAGES.AMOUNT_TOO_HIGH` (with the formatted maximum inlined). -/
def AMOUNT_TOO_HIGH : String := "Amount must not exceed $5,000"

/-- `ERROR_MESSAGES.SELECT_ASSET`. -/
def SELECT_ASSET : String := "Please select an asset to purchase"

/-- `ERROR_MESSAGES.GENERIC_ERROR`. -/
def GENERIC_ERROR : String := "An unknown error occurred"

/-! ## Data model (`CryptoAsset` from the app's `types` module, per §3 of the
spec and the fields the hooks access: `id`, `name`, `symbol`, `rank`,
`quote.USD.price`). -/

/-- The `quote.USD` object of one asset: its USD price. -/
structure USDQuote where
  price : Rat
  deriving DecidableEq, Repr

/-- The `quote` object of one asset. -/
structure AssetQuote where
  USD : USDQuote
  deriving DecidableEq, Repr

/-- One cryptocurrency asset record as delivered by the gateway. -/
structure CryptoAsset where
  id : Nat
  name : String
  symbol : String
  rank : Nat
  quote : AssetQuote
  deriving DecidableEq, Repr

/-! ## A model of JavaScript `parseFloat` on finite decimal literals.

`parseFloat(s)` skips leading whitespace, then reads the longest prefix of
the form `[+-]? (digits [. digits?] | . digits) ([eE] [+-]? digits)?` and
returns its value, ignoring any trailing garbage; if no such prefix exists
the result is `NaN`, modelled here as `none`.  (The `Infinity` literal,
which no finite rational can represent, is outside this model.) -/

/-- Numeric value of a list of decimal digit characters (most significant
first), e.g. `['4','2'] ↦ 42`. -/
def digitsVal (ds : List Char) : Nat :=
  ds.foldl (fun acc c => 10 * acc + (c.toNat - '0'.toNat)) 0

/-- The exact rational `m * 10 ^ e`. -/
def ratScale (m : Int) (e : Int) : Rat :=
  if 0 ≤ e then mkRat (m * (10 : Int) ^ e.toNat) 1
  else mkRat m ((10 : Nat) ^ (-e).toNat)

/-- Parse the unsigned mantissa `digits [. digits?] | . digits`, returning the
combined digit value, the number of fraction digits, and the remaining input;
`none` when not even one digit is present. -/
def parseMantissa (cs : List Char) : Option (Nat × Nat × List Char) :=
  let intDigits := cs.takeWhile Char.isDigit
  let rest := cs.dropWhile Char.isDigit
  match rest with
  | '.' :: rest2 =>
      let fracDigits := rest2.takeWhile Char.isDigit
      let rest3 := rest2.dropWhile Char.isDigit
      if intDigits.isEmpty ∧ fracDigits.isEmpty then
        none
      else
        some (digitsVal (intDigits ++ fracDigits), fracDigits.length, rest3)
  | _ =>
      if intDigits.isEmpty then none
      else some (digitsVal intDigits, 0, rest)

/-- Value of the optional `[eE] [+-]? digits` exponent suffix; an `e` not
followed by at least one digit is not consumed (`parseFloat("1e") = 1`). -/
def parseExponent (cs : List Char) : Int :=
  match cs with
  | e :: rest =>
      if e = 'e' ∨ e = 'E' then
        match rest with
        | '-' :: ds =>
            let expDigits := ds.takeWhile Char.isDigit
            if expDigits.isEmpty then 0 else -(digitsVal expDigits : Int)
        | '+' :: ds =>
            let expDigits := ds.takeWhile Char.isDigit
            if expDigits.isEmpty then 0 else (digitsVal expDigits : Int)
        | ds =>
            let expDigits := ds.takeWhile Char.isDigit
            if expDigits.isEmpty then 0 else (digitsVal expDigits : Int)
      else 0
  | [] => 0

/-- JavaScript `parseFloat`, restricted to finite decimal literals:
`none` models `NaN`. -/
def parseFloat (s : String) : Option Rat :=
  let cs := s.data.dropWhile Char.isWhitespace
  let signAndRest : Int × List Char :=
    match cs with
    | '-' :: r => (-1, r)
    | '+' :: r => (1, r)
    | _ => (1, cs)
  (parseMantissa signAndRest.2).map fun (m, fracLen, rest) =>
    ratScale (signAndRest.1 * m) (parseExponent rest - fracLen)

/-! ## Purchase form validation (`validateForm` in `usePurchaseForm`). -/

/-- `PurchaseFormData`: the draft under edit. -/
structure PurchaseFormData where
  amount : String
  selectedAsset : String
  deriving DecidableEq, Repr

/-- `FormErrors`: field-scoped optional error messages; `none` means the
field is valid (the key is absent from the JS object). -/
structure FormErrors where
  amount : Option String := none
  asset : Option String := none
  deriving DecidableEq, Repr

/-- Models `formData.amount.trim() === ""` (the string is empty or
all-whitespace). -/
def trimEmpty (s : String) : Bool :=
  s.data.all Char.isWhitespace

/-- `validateForm`: checks the amount (required, numeric, > 0,
≤ `MAX_AMOUNT`) and the asset selection, in the source's branch order. -/
def validateForm (fd : PurchaseFormData) : FormErrors :=
  let amountErr : Option String :=
    if fd.amount = "" ∨ trimEmpty fd.amount then some AMOUNT_REQUIRED
    else
      match parseFloat fd.amount with
      | none => some INVALID_NUMBER
      | some v =>
          if v ≤ 0 then some AMOUNT_TOO_LOW
          else if v > MAX_AMOUNT then some AMOUNT_TOO_HIGH
          else none
  let assetErr : Option String :=
    if fd.selectedAsset = "" then some SELECT_ASSET else none
  { amount := amountErr, asset := assetErr }

/-- `Object.keys(errors).length === 0`: the whole form is valid. -/
def formIsValid (fd : PurchaseFormData) : Bool :=
  (validateForm fd).amount = none ∧ (validateForm fd).asset = none

/-! ## Sorter (`sortCryptoData` / `sortedCryptoData` in the page component).

`[...data].sort(comparator)` is JavaScript's stable in-place sort on a copy;
we model it as Lean's stable `List.mergeSort` ordered by
`comparator a b ≤ 0`, which for a consistent comparator yields the unique
stable sort.  `localeCompare` is modelled as the sign of the standard
lexicographic order on `String`. -/

/-- `SortOption`: the column to sort by. -/
inductive SortOption where
  | name
  | symbol
  | price
  deriving DecidableEq, Repr

/-- `SortDirection`. -/
inductive SortDirection where
  | asc
  | desc
  deriving DecidableEq, Repr

/-- Model of `a.localeCompare(b)`: negative / zero / positive according to
the lexicographic order on strings. -/
def localeCompare (a b : String) : Rat :=
  if a < b then -1 else if b < a then 1 else 0

/-- The `result` computed in the comparator's `switch` (before the direction
sign is applied). -/
def cmpResult (o : SortOption) (a b : CryptoAsset) : Rat :=
  match o with
  | .name => localeCompare a.name b.name
  | .symbol => localeCompare a.symbol b.symbol
  | .price => a.quote.USD.price - b.quote.USD.price

/-- The comparator passed to `.sort`:
`direction === "desc" ? -result : result`. -/
def comparator (o : SortOption) (d : SortDirection) (a b : CryptoAsset) : Rat :=
  match d with
  | .desc => -(cmpResult o a b)
  | .asc => cmpResult o a b

/-- `sortCryptoData`: returns the data unchanged when no sort option is set,
otherwise a stable sort of a copy of the data by the comparator. -/
def sortCryptoData (data : List CryptoAsset) (sortOption : Option SortOption)
    (direction : SortDirection) : List CryptoAsset :=
  match sortOption with
  | none => data
  | some o => data.mergeSort fun a b => decide (comparator o direction a b ≤ 0)

/-- `sortedCryptoData`: the memoized list the page renders — the explicit
sort when a column is chosen, else the default alphabetical-by-name sort
`[...cryptoData].sort((a, b) => a.name.localeCompare(b.name))`. -/
def sortedCryptoData (cryptoData : List CryptoAsset)
    (sortBy : Option SortOption) (sortDirection : SortDirection) :
    List CryptoAsset :=
  match sortBy with
  | some o => sortCryptoData cryptoData (some o) sortDirection
  | none => cryptoData.mergeSort fun a b => decide (localeCompare a.name b.name ≤ 0)

/-! ## Data poller (`useCryptoData`). -/

/-- The state owned by `useCryptoData`. -/
structure PollerState where
  cryptoData : List CryptoAsset
  loading : Bool
  error : Option String
  countdown : Nat
  deriving DecidableEq, Repr

/-- The poller's state on mount. -/
def initialPollerState : PollerState :=
  { cryptoData := [], loading := true, error := none, countdown := INITIAL_COUNTDOWN }

/-- The outcome of one `fetch("/api/crypto")` round trip as observed by the
hook: either a well-formed envelope's asset array, or a thrown/derived error
message (non-ok response, network failure, or missing `data` array). -/
inductive FetchOutcome where
  | success (data : List CryptoAsset)
  | failure (msg : String)
  deriving DecidableEq, Repr

/-- `fetchCryptoData`: one refresh attempt.  On success the snapshot is
replaced wholesale, the error is cleared and the countdown reset; on failure
only the error is set; `loading` ends `false` either way. -/
def fetchCryptoData (outcome : FetchOutcome) (s : PollerState) : PollerState :=
  let s1 := { s with loading := true }
  match outcome with
  | .success data =>
      { s1 with cryptoData := data, error := none,
                countdown := INITIAL_COUNTDOWN, loading := false }
  | .failure msg =>
      { s1 with error := some msg, loading := false }

/-- `getDefaultAsset`: Bitcoin's id when a BTC asset is present, else the
first asset's id, else the empty string. -/
def getDefaultAsset (cryptoData : List CryptoAsset) : String :=
  match cryptoData with
  | [] => ""
  | a :: rest =>
      match (a :: rest).find? (fun c => c.symbol = CRYPTO_SYMBOL) with
      | some bitcoin => toString bitcoin.id
      | none => toString a.id

/-! ## Purchase submission (`handleSubmit` in `usePurchaseForm`). -/

/-- The purchase record logged on success. -/
structure PurchaseData where
  usdAmount : Rat
  assetId : Nat
  assetName : String
  assetSymbol : String
  price : Rat
  estimatedQuantity : Rat
  deriving DecidableEq, Repr

/-- The notification effect a submission emits. -/
inductive SubmitEffect where
  | errorNotif (msg : String)
  | successNotif (msg : String)
  deriving DecidableEq, Repr

/-- Result of one submission: the form state afterwards, the validation
errors rendered, the notification emitted, and the logged purchase if any. -/
structure SubmitResult where
  formData : PurchaseFormData
  formErrors : FormErrors
  effect : SubmitEffect
  purchase : Option PurchaseData
  deriving DecidableEq, Repr

/-- `handleSubmit`: validate; on validation failure report and stop; resolve
the selected asset against the snapshot; when absent report
"Selected asset not found" leaving the draft intact; otherwise log the
purchase, clear the form and report success. -/
def handleSubmit (cryptoData : List CryptoAsset) (fd : PurchaseFormData) :
    SubmitResult :=
  let errors := validateForm fd
  if ¬ (errors.amount = none ∧ errors.asset = none) then
    { formData := fd, formErrors := errors,
      effect := .errorNotif "Please fix the form errors before submitting",
      purchase := none }
  else
    let asset := cryptoData.find? fun crypto => toString crypto.id = fd.selectedAsset
    let amount := (parseFloat fd.amount).getD 0
    match asset with
    | none =>
        { formData := fd, formErrors := errors,
          effect := .errorNotif "Selected asset not found", purchase := none }
    | some a =>
        { formData := { amount := "", selectedAsset := "" },
          formErrors := {},
          effect := .successNotif
            "Purchase order submitted successfully! Check console for details.",
          purchase := some
            { usdAmount := amount, assetId := a.id, assetName := a.name,
              assetSymbol := a.symbol, price := a.quote.USD.price,
              estimatedQuantity := amount / a.quote.USD.price } }

/-! ## Notification slot (`useNotification`).

`showNotification` replaces the whole state and schedules a `setTimeout`
that will set `show := false` 5000 ms later; the previous timeout is *not*
cancelled.  We model time in milliseconds and a system as the current state
plus the multiset of pending timeout deadlines. -/

/-- Notification kinds. -/
inductive NotifType where
  | info
  | success
  | error
  deriving DecidableEq, Repr

/-- `NotificationState`; `visible` renders the source's `show` flag
(`show` is a Lean keyword). -/
structure NotificationState where
  message : String
  type : NotifType
  visible : Bool
  deriving DecidableEq, Repr

/-- Auto-hide delay in milliseconds. -/
def AUTO_HIDE_MS : Nat := 5000

/-- The notification state plus the pending `setTimeout` deadlines. -/
structure NotifSys where
  state : NotificationState
  pending : List Nat
  deriving DecidableEq, Repr

/-- Initial notification state. -/
def initNotif : NotifSys :=
  { state := { message := "", type := .info, visible := false }, pending := [] }

/-- Fire every timeout whose deadline has passed by time `t`: each one sets
the `show` flag to `false` and leaves message and type untouched. -/
def fireDue (t : Nat) (s : NotifSys) : NotifSys :=
  { state :=
      if s.pending.any (fun d => d ≤ t) then { s.state with visible := false }
      else s.state,
    pending := s.pending.filter fun d => ¬ d ≤ t }

/-- `showNotification` executed at absolute time `t`. -/
def showNotification (t : Nat) (message : String) (type : NotifType)
    (s : NotifSys) : NotifSys :=
  { state := { message := message, type := type, visible := true },
    pending := s.pending ++ [t + AUTO_HIDE_MS] }

/-- Run a chronological list of `show` calls `(time, message, type)` from the
initial state, firing due timeouts before each call. -/
def runCalls (calls : List (Nat × String × NotifType)) : NotifSys :=
  calls.foldl (fun s c => showNotification c.1 c.2.1 c.2.2 (fireDue c.1 s))
    initNotif

/-- The notification state an observer reads at time `t`, given the whole
chronological call list. -/
def observeNotif (calls : List (Nat × String × NotifType)) (t : Nat) :
    NotificationState :=
  (fireDue t (runCalls (calls.filter fun c => c.1 ≤ t))).state

/-! ## Upstream gateway (`GET` / `OPTIONS` route handler).

The richer of the two route variants in the repository is modelled: it
checks the credential before dialling out and attaches a `details`
diagnostic to failure bodies. -/

/-- The JSON body of a provider 200 response: an optional `data` array and
an opaque `status` field (absent when the envelope lacks one). -/
structure CmcBody where
  data : Option (List CryptoAsset)
  status : Option String
  deriving DecidableEq, Repr

/-- What the single outbound call would observe if it were made. -/
inductive UpstreamOutcome where
  | httpOk (body : CmcBody)
  | httpError (statusCode : Nat) (errorText : String)
  | networkError (msg : String)
  deriving DecidableEq, Repr

/-- The JSON body of the gateway's own response. -/
inductive GatewayBody where
  | success (data : List CryptoAsset) (status : Option String)
  | failure (error : String) (details : Option String)
  deriving DecidableEq, Repr

/-- The gateway's HTTP response together with the number of outbound
requests made while producing it. -/
structure GatewayResult where
  status : Nat
  body : GatewayBody
  outboundCalls : Nat
  deriving DecidableEq, Repr

/-- The route's `GET` handler: `apiKey` is `process.env.COINMARKETCAP_API_KEY`
and `upstream` is what the provider would answer. -/
def gatewayGET (apiKey : Option String) (upstream : UpstreamOutcome) :
    GatewayResult :=
  match apiKey with
  | none =>
      { status := 500,
        body := .failure "API key not configured" none, outboundCalls := 0 }
  | some _ =>
      match upstream with
      | .httpOk body =>
          { status := 200,
            body := .success
              ((body.data.map fun l => l.take MAX_CRYPTO_ASSETS).getD [])
              body.status,
            outboundCalls := 1 }
      | .httpError code text =>
          { status := 500,
            body := .failure FETCH_FAILED
              (some ("CoinMarketCap API error: " ++ toString code ++ " - " ++ text)),
            outboundCalls := 1 }
      | .networkError msg =>
          { status := 500,
            body := .failure FETCH_FAILED (some msg), outboundCalls := 1 }

/-! ## Theorems -/

/-- `""` and all-whitespace strings satisfy the required-field test. -/
theorem trimEmpty_of_eq_empty {s : String} (h : s = "") : trimEmpty s := by
  subst h; decide

/-- The amount branch of `validateForm`, conditioned on the required test
failing: the remaining checks run in priority order. -/
theorem validateForm_amount_eq {fd : PurchaseFormData}
    (h : ¬ trimEmpty fd.amount) :
    (validateForm fd).amount =
      match parseFloat fd.amount with
      | none => some INVALID_NUMBER
      | some v =>
          if v ≤ 0 then some AMOUNT_TOO_LOW
          else if v > MAX_AMOUNT then some AMOUNT_TOO_HIGH
          else none := by
  have hne : ¬ (fd.amount = "" ∨ trimEmpty fd.amount) := by
    rintro (h1 | h1)
    · exact h (trimEmpty_of_eq_empty h1)
    · exact h h1
  simp only [validateForm, if_neg hne]

/-- C2: amount validation applies the required / numeric / positive / within
max checks in mutually exclusive priority order against the bounds 0.01 and
5000, and in particular `0.01` and `5000` are valid, `0` is too low,
`5000.01` is too high, `""` is required, and `"abc"` is not a number. -/
theorem validateForm_amount_priority :
    (∀ (fd : PurchaseFormData) (v : Rat),
      (trimEmpty fd.amount → (validateForm fd).amount = some AMOUNT_REQUIRED) ∧
      (¬ trimEmpty fd.amount → parseFloat fd.amount = none →
        (validateForm fd).amount = some INVALID_NUMBER) ∧
      (¬ trimEmpty fd.amount → parseFloat fd.amount = some v → v ≤ 0 →
        (validateForm fd).amount = some AMOUNT_TOO_LOW) ∧
      (¬ trimEmpty fd.amount → parseFloat fd.amount = some v → 0 < v →
        MAX_AMOUNT < v → (validateForm fd).amount = some AMOUNT_TOO_HIGH) ∧
      (¬ trimEmpty fd.amount → parseFloat fd.amount = some v → 0 < v →
        v ≤ MAX_AMOUNT → (validateForm fd).amount = none)) ∧
    (validateForm ⟨"0.01", "x"⟩).amount = none ∧
    (validateForm ⟨"5000", "x"⟩).amount = none ∧
    (validateForm ⟨"0", "x"⟩).amount = some AMOUNT_TOO_LOW ∧
    (validateForm ⟨"5000.01", "x"⟩).amount = some AMOUNT_TOO_HIGH ∧
    (validateForm ⟨"", "x"⟩).amount = some AMOUNT_REQUIRED ∧
    (validateForm ⟨"abc", "x"⟩).amount = some INVALID_NUMBER := by
  refine ⟨fun fd v => ⟨?_, ?_, ?_, ?_, ?_⟩,
    by decide, by decide, by decide, by decide, by decide, by decide⟩
  · intro h
    simp only [validateForm, if_pos (Or.inr h)]
  · intro h hp
    rw [validateForm_amount_eq h, hp]
  · intro h hp hv
    rw [validateForm_amount_eq h, hp]
    simp [if_pos hv]
  · intro h hp hv0 hvmax
    rw [validateForm_amount_eq h, hp]
    dsimp only
    rw [if_neg (by exact not_le.mpr hv0), if_pos hvmax]
  · intro h hp hv0 hvmax
    rw [validateForm_amount_eq h, hp]
    dsimp only
    rw [if_neg (by exact not_le.mpr hv0), if_neg (by exact not_lt.mpr hvmax)]

/-- Witness for the priority-order theorem at the concrete input `"17"`. -/
theorem validateForm_amount_priority_witness :
    (validateForm ⟨"17", "x"⟩).amount = none :=
  (validateForm_amount_priority.1 ⟨"17", "x"⟩ 17).2.2.2.2 (by decide)
    (by decide) (by decide) (by decide)

/-- C9: an amount string whose leading prefix parses under `parseFloat`
(trailing garbage and all) is accepted whenever the parsed value is positive
and at most 5000; in particular `"5abc"` parses to `5` and produces no
amount error. -/
theorem validateForm_accepts_parseFloat_prefix :
    (∀ (fd : PurchaseFormData) (v : Rat),
      ¬ trimEmpty fd.amount → parseFloat fd.amount = some v → 0 < v →
      v ≤ MAX_AMOUNT → (validateForm fd).amount = none) ∧
    parseFloat "5abc" = some 5 ∧
    (validateForm ⟨"5abc", "1"⟩).amount = none := by
  refine ⟨fun fd v h hp hv0 hvmax => ?_, by decide, by decide⟩
  rw [validateForm_amount_eq h, hp]
  dsimp only
  rw [if_neg (by exact not_le.mpr hv0), if_neg (by exact not_lt.mpr hvmax)]

/-- Witness for the parse-prefix theorem at the concrete input `"12xyz"`. -/
theorem validateForm_accepts_parseFloat_prefix_witness :
    (validateForm ⟨"12xyz", "1"⟩).amount = none :=
  validateForm_accepts_parseFloat_prefix.1 ⟨"12xyz", "1"⟩ 12 (by decide)
    (by decide) (by decide) (by decide)

/-- C8: the default-asset query returns a BTC asset's id when one is present
anywhere in the snapshot, the first asset's id when the snapshot is
non-empty without BTC, and `""` on the empty snapshot. -/
theorem getDefaultAsset_spec :
    (∀ l : List CryptoAsset, (∃ a ∈ l, a.symbol = CRYPTO_SYMBOL) →
      ∃ a ∈ l, a.symbol = CRYPTO_SYMBOL ∧ getDefaultAsset l = toString a.id) ∧
    (∀ (a : CryptoAsset) (rest : List CryptoAsset),
      (∀ x ∈ a :: rest, x.symbol ≠ CRYPTO_SYMBOL) →
      getDefaultAsset (a :: rest) = toString a.id) ∧
    getDefaultAsset [] = "" := by
  refine ⟨?_, ?_, rfl⟩
  · rintro (_ | ⟨a, rest⟩) ⟨b, hb, hbtc⟩
    · cases hb
    · rcases hfind : (a :: rest).find? (fun c => c.symbol = CRYPTO_SYMBOL) with
        _ | c
      · exact absurd (by simpa using List.find?_eq_none.mp hfind b hb) (by simp [hbtc])
      · refine ⟨c, List.mem_of_find?_eq_some hfind, by simpa using List.find?_some hfind, ?_⟩
        simp only [getDefaultAsset, hfind]
  · intro a rest hno
    have hfind : (a :: rest).find? (fun c => c.symbol = CRYPTO_SYMBOL) = none :=
      List.find?_eq_none.mpr fun x hx => by simpa using hno x hx
    simp only [getDefaultAsset, hfind]

/-- Witness for the default-asset theorem on concrete snapshots: BTC in
second position is found, and a BTC-free snapshot falls back to its head. -/
theorem getDefaultAsset_spec_witness :
    (∃ a ∈ [CryptoAsset.mk 2 "Ethereum" "ETH" 2 ⟨⟨100⟩⟩,
            CryptoAsset.mk 1 "Bitcoin" "BTC" 1 ⟨⟨200⟩⟩],
      a.symbol = CRYPTO_SYMBOL ∧
      getDefaultAsset [CryptoAsset.mk 2 "Ethereum" "ETH" 2 ⟨⟨100⟩⟩,
        CryptoAsset.mk 1 "Bitcoin" "BTC" 1 ⟨⟨200⟩⟩] = toString a.id) ∧
    getDefaultAsset [CryptoAsset.mk 7 "Solana" "SOL" 5 ⟨⟨10⟩⟩] = toString 7 :=
  ⟨getDefaultAsset_spec.1 _
      ⟨CryptoAsset.mk 1 "Bitcoin" "BTC" 1 ⟨⟨200⟩⟩, by decide, by decide⟩,
    getDefaultAsset_spec.2.1 (CryptoAsset.mk 7 "Solana" "SOL" 5 ⟨⟨10⟩⟩) []
      (by decide)⟩

/-- C7: when validation passes but the selected id matches no asset in the
snapshot, submission emits the "Selected asset not found" error
notification, logs nothing, and leaves the draft (both fields) unchanged. -/
theorem handleSubmit_asset_not_found :
    ∀ (cryptoData : List CryptoAsset) (fd : PurchaseFormData),
      (validateForm fd).amount = none → (validateForm fd).asset = none →
      (∀ c ∈ cryptoData, toString c.id ≠ fd.selectedAsset) →
      handleSubmit cryptoData fd =
        { formData := fd, formErrors := validateForm fd,
          effect := .errorNotif "Selected asset not found",
          purchase := none } := by
  intro cryptoData fd ha hb hno
  have hfind : cryptoData.find? (fun c => toString c.id = fd.selectedAsset) = none :=
    List.find?_eq_none.mpr fun x hx => by simpa using hno x hx
  simp only [handleSubmit, ha, hb, and_self, not_true_eq_false, if_neg,
    ite_false, hfind]

/-- Witness for the asset-not-found theorem at a concrete snapshot/draft. -/
theorem handleSubmit_asset_not_found_witness :
    handleSubmit [CryptoAsset.mk 1 "Bitcoin" "BTC" 1 ⟨⟨50000⟩⟩]
        ⟨"100", "999"⟩ =
      { formData := ⟨"100", "999"⟩,
        formErrors := validateForm ⟨"100", "999"⟩,
        effect := .errorNotif "Selected asset not found",
        purchase := none } :=
  handleSubmit_asset_not_found [CryptoAsset.mk 1 "Bitcoin" "BTC" 1 ⟨⟨50000⟩⟩]
    ⟨"100", "999"⟩ (by decide) (by decide) (by decide)

/-- C3: a failed refresh retains the snapshot and moves to the error state;
the next successful refresh replaces the snapshot wholesale, clears the
error and resets the countdown to its initial 10 seconds. -/
theorem poller_failure_then_success :
    ∀ (s : PollerState) (msg : String) (data : List CryptoAsset),
      (fetchCryptoData (.failure msg) s).cryptoData = s.cryptoData ∧
      (fetchCryptoData (.failure msg) s).error = some msg ∧
      (fetchCryptoData (.failure msg) s).loading = false ∧
      fetchCryptoData (.success data) (fetchCryptoData (.failure msg) s) =
        { cryptoData := data, loading := false, error := none,
          countdown := INITIAL_COUNTDOWN } := by
  intro s msg data
  exact ⟨rfl, rfl, rfl, rfl⟩

/-- C10: a provider 200 whose JSON body lacks a `data` array is passed
through as a 200 envelope with an empty asset list and the body's `status`
field, never as a 500. -/
theorem gateway_missing_data_array :
    ∀ (key : String) (st : Option String),
      gatewayGET (some key) (.httpOk { data := none, status := st }) =
        { status := 200, body := .success [] st, outboundCalls := 1 } := by
  intro key st
  rfl

/-- C6 counterexample: with the credential absent, the 500 body carries the
literal "API key not configured" — not the fixed user-facing fetch-failure
message — and no `details` diagnostic at all. -/
theorem gateway_failure_counterexample :
    (gatewayGET none (.httpOk { data := some [], status := none })).status = 500 ∧
    (gatewayGET none (.httpOk { data := some [], status := none })).body =
      .failure "API key not configured" none ∧
    "API key not configured" ≠ FETCH_FAILED := by
  exact ⟨rfl, rfl, by decide⟩

/-- C6 (amended): provider non-200 and network failures yield a 500 with the
fixed message plus a `details` diagnostic and exactly one outbound call; a
missing credential yields a 500 with the literal "API key not configured"
body, no `details`, and zero outbound calls; no invocation dials out more
than once (no retry). -/
theorem gateway_failure_responses :
    ∀ (key : String) (u : UpstreamOutcome) (code : Nat) (text msg : String),
      gatewayGET (some key) (.httpError code text) =
        { status := 500,
          body := .failure FETCH_FAILED
            (some ("CoinMarketCap API error: " ++ toString code ++ " - " ++ text)),
          outboundCalls := 1 } ∧
      gatewayGET (some key) (.networkError msg) =
        { status := 500, body := .failure FETCH_FAILED (some msg),
          outboundCalls := 1 } ∧
      gatewayGET none u =
        { status := 500, body := .failure "API key not configured" none,
          outboundCalls := 0 } ∧
      (gatewayGET (some key) u).outboundCalls ≤ 1 := by
  intro key u code text msg
  refine ⟨rfl, rfl, rfl, ?_⟩
  cases u <;> exact le_refl 1

/-! ### Sorter lemmas -/

/-- `localeCompare a b ≤ 0` is exactly the lexicographic `a ≤ b`. -/
theorem localeCompare_nonpos {a b : String} : localeCompare a b ≤ 0 ↔ a ≤ b := by
  unfold localeCompare
  rcases lt_trichotomy a b with h | h | h
  · simp only [if_pos h]
    exact iff_of_true (by norm_num) h.le
  · subst h
    simp only [lt_irrefl, if_neg (lt_irrefl a), ite_self]
    exact iff_of_true le_rfl le_rfl
  · rw [if_neg (asymm h), if_pos h]
    exact iff_of_false (by norm_num) (not_le.mpr h)

/-- Swapping the arguments of `localeCompare` negates it. -/
theorem localeCompare_swap (a b : String) :
    localeCompare b a = -(localeCompare a b) := by
  unfold localeCompare
  rcases lt_trichotomy a b with h | h | h
  · rw [if_neg (asymm h), if_pos h, if_pos h]
    norm_num
  · subst h
    simp
  · simp only [if_neg (asymm h), if_pos h]

/-- The key order each sort option compares by. -/
def keyLe (o : SortOption) (a b : CryptoAsset) : Prop :=
  match o with
  | .name => a.name ≤ b.name
  | .symbol => a.symbol ≤ b.symbol
  | .price => a.quote.USD.price ≤ b.quote.USD.price

/-- A non-positive comparator `result` means the key order holds. -/
theorem cmpResult_nonpos_iff (o : SortOption) (a b : CryptoAsset) :
    cmpResult o a b ≤ 0 ↔ keyLe o a b := by
  cases o
  · exact localeCompare_nonpos
  · exact localeCompare_nonpos
  · exact sub_nonpos

/-- Swapping the comparator's arguments negates the `result`. -/
theorem cmpResult_swap (o : SortOption) (a b : CryptoAsset) :
    cmpResult o b a = -(cmpResult o a b) := by
  cases o
  · exact localeCompare_swap a.name b.name
  · exact localeCompare_swap a.symbol b.symbol
  · exact (neg_sub a.quote.USD.price b.quote.USD.price).symm

/-- The boolean `le` relation fed to the stable sort. -/
def sortLe (o : SortOption) (d : SortDirection) (a b : CryptoAsset) : Bool :=
  decide (comparator o d a b ≤ 0)

/-- `sortLe` in terms of the undirected key order. -/
theorem sortLe_iff (o : SortOption) (d : SortDirection) (a b : CryptoAsset) :
    sortLe o d a b = true ↔
      (match d with
        | .asc => keyLe o a b
        | .desc => keyLe o b a) := by
  cases d
  · simpa [sortLe, comparator] using cmpResult_nonpos_iff o a b
  · simp only [sortLe, comparator, decide_eq_true_eq, neg_nonpos]
    rw [← neg_nonpos, ← cmpResult_swap]
    exact cmpResult_nonpos_iff o b a

/-- `keyLe` is transitive. -/
theorem keyLe_trans (o : SortOption) {a b c : CryptoAsset}
    (h1 : keyLe o a b) (h2 : keyLe o b c) : keyLe o a c := by
  cases o <;> exact le_trans h1 h2

/-- `keyLe` is total. -/
theorem keyLe_total (o : SortOption) (a b : CryptoAsset) :
    keyLe o a b ∨ keyLe o b a := by
  cases o <;> exact le_total _ _

/-- `sortLe` is transitive, as the stable sort requires. -/
theorem sortLe_trans (o : SortOption) (d : SortDirection)
    (a b c : CryptoAsset) (h1 : sortLe o d a b) (h2 : sortLe o d b c) :
    sortLe o d a c := by
  cases d
  · exact (sortLe_iff o .asc a c).mpr
      (keyLe_trans o ((sortLe_iff o .asc a b).mp h1) ((sortLe_iff o .asc b c).mp h2))
  · exact (sortLe_iff o .desc a c).mpr
      (keyLe_trans o ((sortLe_iff o .desc b c).mp h2) ((sortLe_iff o .desc a b).mp h1))

/-- `sortLe` is total, as the stable sort requires. -/
theorem sortLe_total (o : SortOption) (d : SortDirection) (a b : CryptoAsset) :
    sortLe o d a b || sortLe o d b a := by
  cases d <;>
    · rcases keyLe_total o a b with h | h <;>
        simp [sortLe_iff, h]

/-- The comparator's `le` relation literally is `sortLe`. -/
theorem sortCryptoData_some_eq (data : List CryptoAsset) (o : SortOption)
    (d : SortDirection) :
    sortCryptoData data (some o) d = data.mergeSort (sortLe o d) := rfl

/-- C4: elements whose sort keys compare equal keep their snapshot order
in the sorted output, under the ascending and the negated (descending)
comparator alike — the sort is stable and descending is not a reversal. -/
theorem sortCryptoData_stable_ties :
    ∀ (data : List CryptoAsset) (o : SortOption) (d : SortDirection)
      (a b : CryptoAsset),
      List.Sublist [a, b] data → cmpResult o a b = 0 →
      List.Sublist [a, b] (sortCryptoData data (some o) d) := by
  intro data o d a b hsub htie
  rw [sortCryptoData_some_eq]
  have hab : sortLe o d a b = true := by
    have h1 : cmpResult o a b ≤ 0 := le_of_eq htie
    have h2 : cmpResult o b a ≤ 0 := by
      rw [cmpResult_swap, htie]
      norm_num
    cases d
    · exact (sortLe_iff o .asc a b).mpr ((cmpResult_nonpos_iff o a b).mp h1)
    · exact (sortLe_iff o .desc a b).mpr ((cmpResult_nonpos_iff o b a).mp h2)
  exact List.pair_sublist_mergeSort (sortLe_trans o d) (sortLe_total o d) hab hsub

/-- Witness for tie stability: two distinct assets sharing a price keep
their order when sorting by price descending. -/
theorem sortCryptoData_stable_ties_witness :
    List.Sublist
      [CryptoAsset.mk 1 "Aurora" "AAA" 1 ⟨⟨3⟩⟩,
       CryptoAsset.mk 2 "Borealis" "BBB" 2 ⟨⟨3⟩⟩]
      (sortCryptoData
        [CryptoAsset.mk 1 "Aurora" "AAA" 1 ⟨⟨3⟩⟩,
         CryptoAsset.mk 2 "Borealis" "BBB" 2 ⟨⟨3⟩⟩]
        (some .price) .desc) :=
  sortCryptoData_stable_ties _ .price .desc _ _ (List.Sublist.refl _)
    (by simp [cmpResult])

/-- C5: with no sort key chosen, the rendered list is the snapshot permuted
into ascending lexicographic order by `name` — not the input order. -/
theorem sortedCryptoData_default_by_name :
    ∀ (data : List CryptoAsset) (d : SortDirection),
      (sortedCryptoData data none d).Perm data ∧
      (sortedCryptoData data none d).Pairwise
        (fun a b => a.name ≤ b.name) := by
  intro data d
  constructor
  · exact List.mergeSort_perm data _
  · have h := @List.sorted_mergeSort CryptoAsset
      (fun a b : CryptoAsset => decide (localeCompare a.name b.name ≤ 0))
      (fun a b c h1 h2 => by
        simp only [decide_eq_true_eq, localeCompare_nonpos] at h1 h2 ⊢
        exact le_trans h1 h2)
      (fun a b => by
        rcases le_total a.name b.name with h | h <;>
          simp [localeCompare_nonpos, h])
      data
    exact h.imp fun hab => by
      simpa [localeCompare_nonpos] using hab

/-! ### Notification slot behaviour -/

/-- General behaviour of two overlapping `show` calls: the second call's
message and kind replace the first immediately, but because the first
call's timeout is never cancelled, the notification turns invisible as
soon as the FIRST call's 5-second window elapses; the text `m2` is
retained while hidden. -/
theorem notification_overlap_behavior :
    ∀ (t1 t2 : Nat) (m1 m2 : String) (k1 k2 : NotifType) (t : Nat),
      t1 < t2 → t2 < t1 + AUTO_HIDE_MS →
      ((t2 ≤ t → t < t1 + AUTO_HIDE_MS →
        observeNotif [(t1, m1, k1), (t2, m2, k2)] t =
          { message := m2, type := k2, visible := true }) ∧
       (t1 + AUTO_HIDE_MS ≤ t →
        observeNotif [(t1, m1, k1), (t2, m2, k2)] t =
          { message := m2, type := k2, visible := false })) := by
  intro t1 t2 m1 m2 k1 k2 t h12 h2w
  have hk : ¬ (t1 + AUTO_HIDE_MS ≤ t2) := not_le.mpr h2w
  constructor
  · intro hts htw
    have h1t : t1 ≤ t := le_trans h12.le hts
    have hk2 : ¬ (t1 + AUTO_HIDE_MS ≤ t) := not_le.mpr htw
    have hk3 : ¬ (t2 + AUTO_HIDE_MS ≤ t) := by
      have h1le2 : t1 + AUTO_HIDE_MS ≤ t2 + AUTO_HIDE_MS :=
        Nat.add_le_add_right h12.le _
      exact not_le.mpr (lt_of_lt_of_le htw h1le2)
    simp [observeNotif, runCalls, fireDue, showNotification, initNotif,
      List.filter_cons, h1t, hts, hk, hk2, hk3, h2w, htw]
  · intro hw
    have hts : t2 ≤ t := le_trans h2w.le hw
    have h1t : t1 ≤ t := le_trans h12.le hts
    have hnltw : ¬ t < t1 + AUTO_HIDE_MS := not_lt.mpr hw
    simp [observeNotif, runCalls, fireDue, showNotification, initNotif,
      List.filter_cons, h1t, hts, hk, hw, h2w, hnltw]

/-- C1: evaluating the notification slot on the spec's own scenario —
`show("A", success)` at 0 ms, `show("B", error)` at 3000 ms — shows the
second message replacing the first, but the un-cancelled first timeout
hides it at 5000 ms, while the claim requires it to stay visible until
8000 ms (e.g. at 7999 ms). -/
theorem notification_overwrite_at_failing_input :
    observeNotif [(0, "A", .success), (3000, "B", .error)] 4999 =
      { message := "B", type := .error, visible := true } ∧
    observeNotif [(0, "A", .success), (3000, "B", .error)] 5000 =
      { message := "B", type := .error, visible := false } ∧
    observeNotif [(0, "A", .success), (3000, "B", .error)] 7999 =
      { message := "B", type := .error, visible := false } := by
  exact ⟨by decide, by decide, by decide⟩

end Investifi
